import Mathlib

/-!
Verification development for the MAI-Dx Orchestrator repository.

The Python sources are shallowly embedded:
  * Python `float` arithmetic is modelled by `ℚ` (the constants involved are
    exact decimals and no claim sits at a floating-point rounding boundary);
  * `str` is `String`; Python's substring test `a in b` is `pyIn a b`;
    `str.lower()` is `pyLower` (ASCII case-folding; Hangul has no case);
  * every external model call (`openai` chat completion) is an oracle
    parameter: `Except String String` for call sites consuming raw text
    (`.error e` = the call raised an exception with message `e`), and
    `Except Unit (Option ℚ)` for call sites that immediately run
    `float(reply.strip())` on the reply (`.error` = the call raised,
    `.ok none` = reply did not parse as a float, `.ok (some q)` = parsed `q`);
  * pydantic `Field(ge=0.0, le=1.0)` validation is an explicit range check in
    a fallible constructor; constructing a record with an out-of-range value
    raises in Python, which the embedding renders as `Option`/branching;
  * `Dict[str, Any]` contexts are association lists over a tagged value type,
    with Python's insert-or-overwrite update semantics.
-/

namespace MAIDx

/-! ## String primitives (Python `in`, `lower`, `strip`, `split`) -/

/-- Python's `a in b` on lists: `needle` occurs contiguously inside `hay`. -/
def listPrefixOf : List Char → List Char → Bool
  | [], _ => true
  | _ :: _, [] => false
  | a :: as, b :: bs => a == b && listPrefixOf as bs

/-- Contiguous-sublist test used to embed Python's `needle in hay` on `str`. -/
def listInfixOf (needle : List Char) : List Char → Bool
  | [] => needle.isEmpty
  | b :: bs => listPrefixOf needle (b :: bs) || listInfixOf needle bs

/-- Python's substring containment `needle in hay`. -/
def pyIn (needle hay : String) : Bool :=
  listInfixOf needle.data hay.data

/-- Python's `str.lower()`.  Only ASCII letters occur cased in the sources;
Hangul is caseless, so ASCII folding is faithful for this repository. -/
def pyLower (s : String) : String :=
  String.mk (s.data.map Char.toLower)

/-- The ASCII whitespace set of Python's `str.strip()`. -/
def pyIsSpace (c : Char) : Bool :=
  c = ' ' || c = '\t' || c = '\n' || c = '\r' || c = '\x0b' || c = '\x0c'

/-- Python's `str.strip()` (no argument): drop leading and trailing
whitespace. -/
def pyStrip (s : String) : String :=
  String.mk (((s.data.dropWhile pyIsSpace).reverse.dropWhile pyIsSpace).reverse)

/-- Python's `str.startswith(prefix)`. -/
def pyStartsWith (pre s : String) : Bool :=
  listPrefixOf pre.data s.data

/-- Python's `s.split(sep)` for a one-character separator (the sources only
split on `'\n'` and `','`): empty pieces are kept. -/
def splitOnChar (sep : Char) : List Char → List (List Char)
  | [] => [[]]
  | x :: xs =>
      match splitOnChar sep xs with
      | [] => [[]]
      | h :: t => if x = sep then [] :: h :: t else (x :: h) :: t

/-- Python's `s.split(sep)` on strings. -/
def pySplit (sep : Char) (s : String) : List String :=
  (splitOnChar sep s.data).map String.mk

/-- Left-to-right removal of every occurrence of `pat`, fuelled by the
remaining length so the recursion is structural. -/
def removeAllAux (pat : List Char) : Nat → List Char → List Char
  | _, [] => []
  | 0, l => l
  | fuel + 1, x :: xs =>
      if pat ≠ [] ∧ listPrefixOf pat (x :: xs) then
        removeAllAux pat fuel (List.drop (pat.length - 1) xs)
      else
        x :: removeAllAux pat fuel xs

/-- Python's `s.replace(old, "")` (the sources only ever replace a tag by the
empty string): removes every occurrence of `old`, scanning left to right. -/
def pyRemove (old s : String) : String :=
  String.mk (removeAllAux old.data s.data.length s.data)

/-- Python's character-count slicing `s[:n]`. -/
def pyTake (n : Nat) (s : String) : String :=
  String.mk (s.data.take n)

/-- Python's `len(s)` (code points). -/
def pyLen (s : String) : Nat :=
  s.data.length

/-- Python's truthiness of a `str`: non-empty. -/
def pyTruthy (s : String) : Bool :=
  !s.data.isEmpty

/-! ## Data model (`src/models/medical_models.py`) -/

/-- `ActionType` enumeration. -/
inductive ActionType
  | ask_question
  | request_test
  | provide_diagnosis
  deriving DecidableEq, Repr

/-- `AgentRole` enumeration (the 5 fixed panel roles). -/
inductive AgentRole
  | hypothesis
  | test_chooser
  | challenger
  | stewardship
  | checklist
  deriving DecidableEq, Repr

/-- `PatientInfo` model. -/
structure PatientInfo where
  age : Option Int
  gender : Option String
  symptoms : List String
  medical_history : List String
  current_medications : List String
  vital_signs : Option (List (String × String))
  deriving DecidableEq, Repr

/-- `AgentResponse` model.  In the source, `confidence` carries the pydantic
constraint `Field(ge=0.0, le=1.0)`: constructing a record outside that range
raises.  The embedding keeps the raw record and makes each construction site
perform the check explicitly (see `mkAgentResponseValid`). -/
structure AgentResponse where
  agent_role : AgentRole
  response : String
  confidence : ℚ
  reasoning : String
  recommendations : List String
  concerns : List String
  deriving DecidableEq, Repr

/-- pydantic validation of `AgentResponse.confidence` (`ge=0.0, le=1.0`). -/
def agentResponseValid (r : AgentResponse) : Prop :=
  0 ≤ r.confidence ∧ r.confidence ≤ 1

instance (r : AgentResponse) : Decidable (agentResponseValid r) := by
  unfold agentResponseValid; infer_instance

/-- `DebateRound` model.  `consensus` is `Optional[str]` in the source but is
always assigned a `str` by `conduct_debate`, the only producer. -/
structure DebateRound where
  round_number : Nat
  agent_responses : List AgentResponse
  consensus : String
  disagreements : List String
  deriving DecidableEq, Repr

/-! ## Python `float(...)` on decimal literals

The sources only ever call `float` on a stripped reply text.  The embedding
parses optionally signed decimal literals (`"0.5"`, `"-2"`, `".5"`, `"5."`);
exponent/`inf`/`nan` forms are not produced by any scenario a claim mentions
and are left out of the model (they would parse to `none`). -/

/-- Digit run to a natural number. -/
def digitsToNat (l : List Char) : ℕ :=
  l.foldl (fun a c => 10 * a + (c.toNat - 48)) 0

/-- Unsigned decimal literal: `digits`, `digits.digits`, `.digits`, `digits.`. -/
def pyFloatUnsigned (l : List Char) : Option ℚ :=
  match l.span (· ≠ '.') with
  | (ip, []) =>
      if ip ≠ [] ∧ ip.all Char.isDigit then some (digitsToNat ip) else none
  | (ip, _ :: fp) =>
      if (ip ≠ [] ∨ fp ≠ []) ∧ ip.all Char.isDigit ∧ fp.all Char.isDigit then
        some ((digitsToNat ip : ℚ) + (digitsToNat fp : ℚ) / (10 : ℚ) ^ fp.length)
      else none

/-- Python `float(s)` on an (already stripped) decimal-literal string. -/
def pyFloat (s : String) : Option ℚ :=
  match s.data with
  | '-' :: t => (pyFloatUnsigned t).map (fun q => -q)
  | '+' :: t => pyFloatUnsigned t
  | t => pyFloatUnsigned t

/-! ## Response Parser (`src/agents/base_agent.py`, `_parse_response`) -/

/-- Mutable loop state of `_parse_response`'s line scan. -/
structure ParseState where
  response : String
  confidence : ℚ
  reasoning : String
  recommendations : List String
  concerns : List String
  current_section : Option String
  deriving Repr

/-- Initial state of the scan (`response = ""`, `confidence = 0.5`, …). -/
def initParseState : ParseState :=
  { response := "", confidence := 1/2, reasoning := "", recommendations := []
    concerns := [], current_section := none }

/-- The comma-splitting of the RECOMMENDATIONS/CONCERNS tag bodies:
`[x.strip() for x in body.split(',') if x.strip()]`. -/
def splitCommaStripFilter (body : String) : List String :=
  ((pySplit ',' body).map pyStrip).filter (fun x => pyTruthy x)

/-- One iteration of the `for line in lines` loop of `_parse_response`. -/
def processLine (st : ParseState) (rawLine : String) : ParseState :=
  let line := pyStrip rawLine
  if !pyTruthy line then st
  else if pyStartsWith "RESPONSE:" line then
    { st with current_section := some "response",
              response := pyStrip (pyRemove "RESPONSE:" line) }
  else if pyStartsWith "CONFIDENCE:" line then
    match pyFloat (pyStrip (pyRemove "CONFIDENCE:" line)) with
    | some q => { st with current_section := some "confidence", confidence := q }
    | none => { st with current_section := some "confidence", confidence := 1/2 }
  else if pyStartsWith "REASONING:" line then
    { st with current_section := some "reasoning",
              reasoning := pyStrip (pyRemove "REASONING:" line) }
  else if pyStartsWith "RECOMMENDATIONS:" line then
    { st with current_section := some "recommendations",
              recommendations :=
                splitCommaStripFilter (pyStrip (pyRemove "RECOMMENDATIONS:" line)) }
  else if pyStartsWith "CONCERNS:" line then
    { st with current_section := some "concerns",
              concerns :=
                splitCommaStripFilter (pyStrip (pyRemove "CONCERNS:" line)) }
  else
    match st.current_section with
    | some "response" => { st with response := st.response ++ " " ++ line }
    | some "reasoning" => { st with reasoning := st.reasoning ++ " " ++ line }
    | _ => st

/-- The field values computed inside `_parse_response`'s `try` block. -/
def parsedFields (content : String) : ParseState :=
  (pySplit '\n' content).foldl processLine initParseState

/-- Fixed reasoning text of the whole-record parse-failure fallback. -/
def parseErrorReasoning : String := "응답 파싱 중 오류가 발생했습니다."

/-- Stand-in for `str(e)` of the pydantic `ValidationError`: the Python text
is produced by the pydantic library and only its presence (one concern entry
prefixed `"파싱 오류: "`) is observable to the claims. -/
def validationErrorText : String := "validation error"

/-- The `except` branch of `_parse_response`: the whole-record fallback. -/
def parseFallback (role : AgentRole) (content : String) : AgentResponse :=
  { agent_role := role
    response := if pyLen content > 200 then pyTake 200 content ++ "..." else content
    confidence := 1/2
    reasoning := parseErrorReasoning
    recommendations := []
    concerns := ["파싱 오류: " ++ validationErrorText] }

/-- The `AgentResponse(...)` construction attempted at the end of
`_parse_response`'s `try` block (`response or "분석 완료"` renders Python's
falsy-string defaulting). -/
def tryRecord (role : AgentRole) (content : String) : AgentResponse :=
  { agent_role := role
    response :=
      if (parsedFields content).response = "" then "분석 완료"
      else (parsedFields content).response
    confidence := (parsedFields content).confidence
    reasoning :=
      if (parsedFields content).reasoning = "" then "제공된 정보를 바탕으로 분석했습니다."
      else (parsedFields content).reasoning
    recommendations := (parsedFields content).recommendations
    concerns := (parsedFields content).concerns }

/-- `_parse_response`.  Inside the `try` block every operation is a total
string manipulation except the final `AgentResponse(...)` construction, whose
pydantic range check on `confidence` is the only raise site; the embedding
therefore branches on that check, falling back exactly when it fails. -/
def parse_response (role : AgentRole) (content : String) : AgentResponse :=
  if agentResponseValid (tryRecord role content) then tryRecord role content
  else parseFallback role content

/-- `BaseAgent.analyze`: issues one model call (the oracle) and parses, or on
a raised call returns the degraded system-error opinion. -/
def analyze (oracle : Except String String) (role : AgentRole) : AgentResponse :=
  match oracle with
  | .ok content => parse_response role content
  | .error e =>
      { agent_role := role
        response := "분석 중 오류가 발생했습니다: " ++ e
        confidence := 0
        reasoning := "시스템 오류로 인해 분석을 완료할 수 없습니다."
        recommendations := []
        concerns := ["시스템 오류: " ++ e] }

/-! ## Debate Engine (`src/core/debate_system.py`, class `ChainOfDebate`) -/

/-- Tagged values of the `Dict[str, Any]` contexts threaded through rounds. -/
inductive CtxVal
  | str : String → CtxVal
  | nat : Nat → CtxVal
  | responses : List AgentResponse → CtxVal
  | round : DebateRound → CtxVal
  | strs : List String → CtxVal
  deriving DecidableEq, Repr

/-- A `Dict[str, Any]` context: association list in insertion order. -/
abbrev Ctx := List (String × CtxVal)

/-- Python dict update `d[k] = v` / `{**d, k: v}`: overwrite in place when the
key exists, append otherwise. -/
def ctxSet (c : Ctx) (k : String) (v : CtxVal) : Ctx :=
  match c with
  | [] => [(k, v)]
  | (k', v') :: rest =>
      if k' = k then (k, v) :: rest else (k', v') :: ctxSet rest k v

/-- The fixed role order of `self.agents` (Python dict insertion order). -/
def panelRoles : List AgentRole :=
  [.hypothesis, .test_chooser, .challenger, .stewardship, .checklist]

/-- An oracle giving each agent invocation's model-call outcome as a function
of everything the prompt is built from (role, patient, per-call context). -/
abbrev AgentOracle := AgentRole → PatientInfo → Ctx → Except String String

/-- The per-agent context built inside `_collect_agent_responses` (lines
84-88): `{**context, "round_number": n, "previous_responses": [...]}` where
`responses` is the list accumulated so far in the same round. -/
def agentContext (context : Ctx) (round_num : Nat)
    (responses : List AgentResponse) : Ctx :=
  ctxSet (ctxSet context "round_number" (.nat round_num))
    "previous_responses" (.responses responses)

/-- The sequential agent loop of `_collect_agent_responses`, returning each
agent's (context-it-was-given, response) pair in invocation order. -/
def collectAux (oracle : AgentOracle) (patient : PatientInfo) (context : Ctx)
    (round_num : Nat) : List AgentRole → List AgentResponse →
    List (Ctx × AgentResponse)
  | [], _ => []
  | role :: rest, acc =>
      let rctx := agentContext context round_num acc
      let resp := analyze (oracle role patient rctx) role
      (rctx, resp) :: collectAux oracle patient context round_num rest (acc ++ [resp])

/-- `_collect_agent_responses`. -/
def collect_agent_responses (oracle : AgentOracle) (patient : PatientInfo)
    (context : Ctx) (round_num : Nat) : List AgentResponse :=
  (collectAux oracle patient context round_num panelRoles []).map (·.2)

/-- The context handed to the agent at (0-based) position `k` of a round. -/
def contextOfAgent (oracle : AgentOracle) (patient : PatientInfo)
    (context : Ctx) (round_num : Nat) (k : Nat) : Option Ctx :=
  ((collectAux oracle patient context round_num panelRoles []).map (·.1))[k]?

/-- Oracle for the one consensus model call of each round. -/
abbrev ConsensusOracle := List AgentResponse → Nat → Except String String

/-- `_reach_consensus`: the model reply verbatim, or on any raised exception
the error-description string (the function never raises). -/
def reach_consensus (outcome : Except String String) : String :=
  match outcome with
  | .ok text => text
  | .error e => "합의 도출 중 오류 발생: " ++ e

/-- First check of `_identify_disagreements`: the confidence spread.
`max()`/`min()` raise on an empty list in Python; the panel always has 5
members, so the `Option` fallback below is unreachable on every program
path. -/
def spreadFlag (agent_responses : List AgentResponse) : List String :=
  match (agent_responses.map (·.confidence)).max?,
      (agent_responses.map (·.confidence)).min? with
  | some M, some m =>
      if M - m > 3/10 then ["에이전트들 간 신뢰도 차이가 큽니다"] else []
  | _, _ => []

/-- The `all_concerns` accumulation loop of `_identify_disagreements`. -/
def allConcerns (agent_responses : List AgentResponse) : List String :=
  agent_responses.foldl (fun acc r => acc ++ r.concerns) []

/-- Second check of `_identify_disagreements`: the concerns summary, joining
the first three concern strings. -/
def concernsFlag (agent_responses : List AgentResponse) : List String :=
  if allConcerns agent_responses ≠ [] then
    ["우려사항 발견: " ++
      String.intercalate ", " ((allConcerns agent_responses).take 3)]
  else []

/-- Third check of `_identify_disagreements`: Python's
`len(set(tuple(rec) for rec in recommendations)) > 1` — the number of
*distinct* recommendation lists (as ordered tuples). -/
def recsFlag (agent_responses : List AgentResponse) : List String :=
  if 1 < (agent_responses.map (·.recommendations)).dedup.length then
    ["에이전트들의 추천사항이 서로 다릅니다"]
  else []

/-- `_identify_disagreements`: the three checks, appended in order. -/
def identify_disagreements (agent_responses : List AgentResponse) : List String :=
  spreadFlag agent_responses ++ concernsFlag agent_responses ++
    recsFlag agent_responses

/-- `_update_context`. -/
def update_context (current : Ctx) (debate_round : DebateRound) : Ctx :=
  ctxSet (ctxSet (ctxSet current "previous_round" (.round debate_round))
      "consensus" (.str debate_round.consensus))
    "disagreements" (.strs debate_round.disagreements)

/-- The early-termination test of `conduct_debate` line 66:
`if consensus and "합의" in consensus`. -/
def consensusStops (consensus : String) : Bool :=
  pyTruthy consensus && pyIn "합의" consensus

/-- The `for round_num in range(1, max_rounds + 1)` loop of `conduct_debate`,
with the early `break` on the agreement check. -/
def conductAux (oracle : AgentOracle) (cons : ConsensusOracle)
    (patient : PatientInfo) : Nat → Nat → Ctx → List DebateRound
  | 0, _, _ => []
  | fuel + 1, round_num, context =>
      let agent_responses := collect_agent_responses oracle patient context round_num
      let consensus := reach_consensus (cons agent_responses round_num)
      let disagreements := identify_disagreements agent_responses
      let debate_round : DebateRound :=
        { round_number := round_num, agent_responses := agent_responses
          consensus := consensus, disagreements := disagreements }
      if consensusStops consensus then [debate_round]
      else
        debate_round ::
          conductAux oracle cons patient fuel (round_num + 1)
            (update_context context debate_round)

/-- `conduct_debate` with its default `context=None` rendered as `[]`. -/
def conduct_debate (oracle : AgentOracle) (cons : ConsensusOracle)
    (patient : PatientInfo) (max_rounds : Nat) (context : Ctx := []) :
    List DebateRound :=
  conductAux oracle cons patient max_rounds 1 context

/-- The round record built by one iteration of `conduct_debate`'s loop
(names the `let`-bound values of `conductAux` for the proofs). -/
def mkDebateRound (oracle : AgentOracle) (cons : ConsensusOracle)
    (patient : PatientInfo) (ctx : Ctx) (n : Nat) : DebateRound :=
  { round_number := n
    agent_responses := collect_agent_responses oracle patient ctx n
    consensus :=
      reach_consensus (cons (collect_agent_responses oracle patient ctx n) n)
    disagreements :=
      identify_disagreements (collect_agent_responses oracle patient ctx n) }

/-- `extract_action_from_consensus`. -/
def extract_action_from_consensus (consensus : String) : ActionType :=
  let consensus_lower := pyLower consensus
  if pyIn "질문" consensus_lower || pyIn "추가 정보" consensus_lower then
    .ask_question
  else if pyIn "검사" consensus_lower || pyIn "테스트" consensus_lower then
    .request_test
  else if pyIn "진단" consensus_lower then
    .provide_diagnosis
  else
    .ask_question

/-! ## Cost Analysis (`src/core/analysis_modules.py`, `CostAnalysisModule`) -/

/-- `MedicalTest` model. -/
structure MedicalTest where
  test_name : String
  test_code : String
  description : String
  cost : ℚ
  urgency : String
  category : String
  deriving DecidableEq, Repr

/-- `CostAnalysis` model (no pydantic range constraints on its fields). -/
structure CostAnalysis where
  total_cost : ℚ
  insurance_coverage : ℚ
  patient_responsibility : ℚ
  cost_breakdown : List (String × ℚ)
  cost_effectiveness : String
  recommendations : List String
  deriving DecidableEq, Repr

/-- Generic Python-dict update (insert-or-overwrite, insertion order kept). -/
def assocSet {α : Type} (d : List (String × α)) (k : String) (v : α) :
    List (String × α) :=
  match d with
  | [] => [(k, v)]
  | (k', v') :: rest =>
      if k' = k then (k, v) :: rest else (k', v') :: assocSet rest k v

/-- `self.test_costs`: key ↦ (cost, insurance_coverage), in insertion order. -/
def test_costs : List (String × ℚ × ℚ) :=
  [("혈액검사", 50000, 8/10), ("X-ray", 80000, 7/10), ("CT", 200000, 6/10),
   ("MRI", 400000, 5/10), ("초음파", 60000, 8/10), ("심전도", 30000, 9/10),
   ("소변검사", 20000, 9/10), ("대변검사", 25000, 9/10),
   ("알레르기검사", 100000, 6/10), ("내시경", 150000, 7/10)]

/-- Bidirectional substring match `key in test_name or test_name in key`. -/
def matchesKey (key test_name : String) : Bool :=
  pyIn key test_name || pyIn test_name key

/-- `_get_test_cost`: first matching table entry's cost, else 50000. -/
def get_test_cost (test_name : String) : ℚ :=
  match test_costs.find? (fun e => matchesKey e.1 test_name) with
  | some e => e.2.1
  | none => 50000

/-- The `for key ... break / else` body of `_calculate_insurance_coverage`:
first matching entry's coverage, else the 0.7 default. -/
def coverageOfTest (test_name : String) : ℚ :=
  match test_costs.find? (fun e => matchesKey e.1 test_name) with
  | some e => e.2.2
  | none => 7/10

/-- The `total_coverage` accumulation loop of `_calculate_insurance_coverage`. -/
def coverageLoop (tests : List MedicalTest) : ℚ :=
  tests.foldl (fun acc t => acc + coverageOfTest t.test_name) 0

/-- `_calculate_insurance_coverage`. -/
def calculate_insurance_coverage (tests : List MedicalTest) : ℚ :=
  if tests.isEmpty then 0 else coverageLoop tests / tests.length

/-- `_evaluate_cost_effectiveness`. -/
def evaluate_cost_effectiveness (total_cost : ℚ) : String :=
  if total_cost < 100000 then "high"
  else if total_cost < 300000 then "medium"
  else "low"

/-- Split a model reply on newlines into stripped non-empty entries, the
pattern `[x.strip() for x in content.split('\n') if x.strip()]`. -/
def splitTrimFilter (content : String) : List String :=
  ((pySplit '\n' content).map pyStrip).filter (fun x => pyTruthy x)

/-- `_generate_cost_recommendations` (its model call is the oracle). -/
def generate_cost_recommendations (oracle : Except String String)
    (tests : List MedicalTest) (total_cost patient_responsibility : ℚ) :
    List String :=
  let recommendations :=
    (if total_cost > 500000 then ["고비용 검사이므로 단계적 접근을 고려하세요"] else []) ++
    (if patient_responsibility > 200000 then ["환자 부담이 큽니다. 보험 혜택을 확인하세요"] else []) ++
    (if 5 < tests.length then ["검사 수가 많습니다. 우선순위를 정해 진행하세요"] else [])
  match oracle with
  | .ok content => recommendations ++ splitTrimFilter content
  | .error _ => recommendations ++ ["AI 비용 분석 중 오류가 발생했습니다"]

/-- `analyze_costs`. -/
def analyze_costs (oracle : Except String String) (tests : List MedicalTest) :
    CostAnalysis :=
  let total_cost := tests.foldl (fun acc t => acc + get_test_cost t.test_name) 0
  let cost_breakdown :=
    tests.foldl (fun d t => assocSet d t.test_name (get_test_cost t.test_name)) []
  let insurance_coverage := calculate_insurance_coverage tests
  let patient_responsibility := total_cost * (1 - insurance_coverage)
  { total_cost := total_cost
    insurance_coverage := insurance_coverage
    patient_responsibility := patient_responsibility
    cost_breakdown := cost_breakdown
    cost_effectiveness := evaluate_cost_effectiveness total_cost
    recommendations :=
      generate_cost_recommendations oracle tests total_cost patient_responsibility }

/-! ## Diagnosis Confirmation (`DiagnosisConfirmationModule`) -/

/-- `Diagnosis` model; `confidence` carries `Field(ge=0.0, le=1.0)`. -/
structure Diagnosis where
  condition : String
  icd_code : Option String
  confidence : ℚ
  differential_diagnoses : List String
  reasoning : String
  severity : String
  deriving DecidableEq, Repr

/-- pydantic validation of `Diagnosis.confidence`. -/
def diagnosisValid (d : Diagnosis) : Prop :=
  0 ≤ d.confidence ∧ d.confidence ≤ 1

instance (d : Diagnosis) : Decidable (diagnosisValid d) := by
  unfold diagnosisValid; infer_instance

/-- Oracle for a call site that runs `float(reply.strip())` on the reply:
`.error` = the call raised, `.ok none` = reply not a float,
`.ok (some q)` = reply parsed as `q`. -/
abbrev ScoreOracle := Except Unit (Option ℚ)

/-- `min(1.0, max(0.0, x))`. -/
def clamp01 (x : ℚ) : ℚ := min 1 (max 0 x)

/-- `_evaluate_symptom_match`.  Both the inner `float` failure and the outer
call failure default to 0.7; a parsed reply is returned unclamped. -/
def evaluate_symptom_match (oracle : ScoreOracle) (patient : PatientInfo) : ℚ :=
  if patient.symptoms = [] then 1/2
  else
    match oracle with
    | .ok (some q) => q
    | .ok none => 7/10
    | .error _ => 7/10

/-- `_evaluate_evidence_strength` (`None` default rendered as `[]`). -/
def evaluate_evidence_strength (supporting_evidence : List String) : ℚ :=
  if supporting_evidence = [] then 1/2
  else if 5 ≤ supporting_evidence.length then 9/10
  else if 3 ≤ supporting_evidence.length then 7/10
  else if 1 ≤ supporting_evidence.length then 3/5
  else 1/2

/-- Python truthiness `patient_info.age and patient_info.age > 65`
(`None` and `0` are falsy; `0 > 65` is false anyway). -/
def ageOver65 (age : Option Int) : Bool :=
  match age with
  | some a => a > 65
  | none => false

/-- `_calculate_risk_adjustment`. -/
def calculate_risk_adjustment (patient : PatientInfo) : ℚ :=
  let risk_factors : ℚ :=
    (if ageOver65 patient.age then 1/10 else 0) +
    (if patient.medical_history ≠ [] then 1/10 else 0) +
    (if patient.current_medications ≠ [] then 1/20 else 0)
  1 - risk_factors

/-- `_calculate_confidence_level`: the 0.4/0.3/0.2/0.1 blend, clamped. -/
def calculate_confidence_level (smOracle : ScoreOracle) (diagnosis : Diagnosis)
    (patient : PatientInfo) (supporting_evidence : List String) : ℚ :=
  clamp01 (diagnosis.confidence * (2/5) +
    evaluate_symptom_match smOracle patient * (3/10) +
    evaluate_evidence_strength supporting_evidence * (1/5) +
    calculate_risk_adjustment patient * (1/10))

/-- Python truthiness of `Optional[str]` (`None` and `""` are falsy). -/
def truthyOptStr (s : Option String) : Bool :=
  match s with
  | some t => t ≠ ""
  | none => false

/-- `_get_confirmation_methods`. -/
def get_confirmation_methods (oracle : Except String String)
    (diagnosis : Diagnosis) (patient : PatientInfo) : List String :=
  let methods :=
    (if diagnosis.confidence > 4/5 then ["높은 신뢰도 기반 확정"] else []) ++
    (if truthyOptStr diagnosis.icd_code then ["ICD 코드 매칭"] else []) ++
    (if patient.symptoms ≠ [] then ["증상 패턴 분석"] else []) ++
    (if patient.medical_history ≠ [] then ["과거 병력 검토"] else [])
  match oracle with
  | .ok content => methods ++ splitTrimFilter content
  | .error _ => methods ++ ["AI 확정 분석 중 오류 발생"]

/-- `_identify_risk_factors`. -/
def identify_risk_factors (oracle : Except String String)
    (diagnosis : Diagnosis) (patient : PatientInfo) : List String :=
  let risk_factors :=
    (if diagnosis.severity = "severe" ∨ diagnosis.severity = "critical" then
      ["중증도가 높은 진단"] else []) ++
    (if ageOver65 patient.age then ["고령 환자"] else []) ++
    (if patient.medical_history ≠ [] then ["기존 병력 존재"] else [])
  match oracle with
  | .ok content => risk_factors ++ splitTrimFilter content
  | .error _ => risk_factors ++ ["AI 위험 분석 중 오류 발생"]

/-- `_assess_follow_up_need`. -/
def assess_follow_up_need (diagnosis : Diagnosis) (confidence_level : ℚ) : Bool :=
  decide (confidence_level < 7/10) ||
    (diagnosis.severity == "severe" || diagnosis.severity == "critical")

/-- `_generate_follow_up_plan`. -/
def generate_follow_up_plan (oracle : Except String String) : String :=
  match oracle with
  | .ok content => content
  | .error _ => "후속 조치 계획 생성 중 오류가 발생했습니다."

/-- `DiagnosisConfirmation` model; `confidence_level` carries
`Field(ge=0.0, le=1.0)`. -/
structure DiagnosisConfirmation where
  confirmed_diagnosis : Diagnosis
  confirmation_methods : List String
  confidence_level : ℚ
  risk_factors : List String
  follow_up_required : Bool
  follow_up_plan : Option String
  deriving DecidableEq, Repr

/-- `confirm_diagnosis` (one oracle per model call site). -/
def confirm_diagnosis (methodsOracle : Except String String)
    (smOracle : ScoreOracle) (risksOracle fuOracle : Except String String)
    (diagnosis : Diagnosis) (patient : PatientInfo)
    (supporting_evidence : List String) : DiagnosisConfirmation :=
  let confidence_level :=
    calculate_confidence_level smOracle diagnosis patient supporting_evidence
  let follow_up_required := assess_follow_up_need diagnosis confidence_level
  { confirmed_diagnosis := diagnosis
    confirmation_methods := get_confirmation_methods methodsOracle diagnosis patient
    confidence_level := confidence_level
    risk_factors := identify_risk_factors risksOracle diagnosis patient
    follow_up_required := follow_up_required
    follow_up_plan :=
      if follow_up_required then some (generate_follow_up_plan fuOracle) else none }

/-! ## SDBench evaluation (`src/core/sdbench_framework.py`) -/

/-- `SDBenchEvaluation` model; all four scores carry `Field(ge=0.0, le=1.0)`. -/
structure SDBenchEvaluation where
  accuracy_score : ℚ
  cost_efficiency : ℚ
  safety_score : ℚ
  overall_score : ℚ
  feedback : List String
  improvement_suggestions : List String
  deriving DecidableEq, Repr

/-- The fixed keyword list of `_calculate_basic_accuracy`. -/
def symptom_keywords : List String :=
  ["발열", "기침", "통증", "피로", "메스꺼움", "구토", "설사", "변비",
   "두통", "어지러움", "호흡곤란", "가슴통증", "복통", "관절통"]

/-- The keyword-matched symptom count of `_calculate_basic_accuracy`. -/
def matchedSymptoms (patient : PatientInfo) : Nat :=
  (patient.symptoms.filter
    (fun s => symptom_keywords.any (fun k => pyIn k s))).length

/-- `_calculate_basic_accuracy` (the `accuracy += …` accumulation written as
one sum). -/
def calculate_basic_accuracy (diagnosis : Diagnosis) (patient : PatientInfo) : ℚ :=
  min 1 (diagnosis.confidence * (2/5) +
    (if patient.symptoms ≠ [] then
      (if 0 < matchedSymptoms patient then
        ((matchedSymptoms patient : ℚ) / patient.symptoms.length) * (3/10)
      else 0)
    else 0) +
    (if diagnosis.differential_diagnoses ≠ [] then (1 : ℚ)/5 else 0) +
    (if diagnosis.severity = "mild" ∨ diagnosis.severity = "moderate" then
      (1 : ℚ)/10
    else 0))

/-- `_evaluate_accuracy`: parsed model score clamped, else the heuristic. -/
def evaluate_accuracy (oracle : ScoreOracle) (diagnosis : Diagnosis)
    (patient : PatientInfo) : ℚ :=
  match oracle with
  | .ok (some q) => clamp01 q
  | .ok none => calculate_basic_accuracy diagnosis patient
  | .error _ => calculate_basic_accuracy diagnosis patient

/-- `_calculate_basic_cost_efficiency` (the `efficiency += …` accumulation
written as one sum). -/
def calculate_basic_cost_efficiency (ca : CostAnalysis) : ℚ :=
  min 1
    ((if ca.total_cost < 100000 then (2 : ℚ)/5
      else if ca.total_cost < 300000 then 3/10
      else if ca.total_cost < 500000 then 1/5
      else 1/10) +
     ca.insurance_coverage * (3/10) +
     (if ca.cost_effectiveness = "high" then (3 : ℚ)/10
      else if ca.cost_effectiveness = "medium" then 1/5
      else 1/10))

/-- `_evaluate_cost_efficiency` (flat 0.5 when no cost analysis exists). -/
def evaluate_cost_efficiency (oracle : ScoreOracle)
    (cost_analysis : Option CostAnalysis) : ℚ :=
  match cost_analysis with
  | none => 1/2
  | some ca =>
      match oracle with
      | .ok (some q) => clamp01 q
      | .ok none => calculate_basic_cost_efficiency ca
      | .error _ => calculate_basic_cost_efficiency ca

/-- `_calculate_basic_safety` (the `safety ± …` accumulation written as one
sum, clamped at the end).  `if patient_info.age:` is Python truthiness, so
`age = 0` (and `age = None`) skips the age adjustments entirely. -/
def calculate_basic_safety (diagnosis : Diagnosis) (patient : PatientInfo) : ℚ :=
  clamp01 ((1 : ℚ)/2 +
    (if diagnosis.severity = "mild" then (1 : ℚ)/5
     else if diagnosis.severity = "moderate" then 1/10
     else if diagnosis.severity = "severe" then -(1/10)
     else if diagnosis.severity = "critical" then -(1/5)
     else 0) +
    (match patient.age with
     | some a =>
        if a ≠ 0 then
          (if a > 65 then -((1 : ℚ)/10) else if a < 18 then -(1/20) else 0)
        else 0
     | none => 0) +
    (if patient.medical_history ≠ [] then -((1 : ℚ)/10) else 0) +
    (if patient.current_medications ≠ [] then -((1 : ℚ)/20) else 0))

/-- `_evaluate_safety`. -/
def evaluate_safety (oracle : ScoreOracle) (diagnosis : Diagnosis)
    (patient : PatientInfo) : ℚ :=
  match oracle with
  | .ok (some q) => clamp01 q
  | .ok none => calculate_basic_safety diagnosis patient
  | .error _ => calculate_basic_safety diagnosis patient

/-- `_calculate_overall_score`: 0.4/0.3/0.3 weighted combination, clamped. -/
def calculate_overall_score (accuracy cost_efficiency safety : ℚ) : ℚ :=
  clamp01 (accuracy * (2/5) + cost_efficiency * (3/10) + safety * (3/10))

/-- `_generate_feedback`: three tiered strings (thresholds 0.8 and 0.6). -/
def generate_feedback (accuracy cost_efficiency safety : ℚ) : List String :=
  [(if accuracy ≥ 4/5 then "진단 정확도가 매우 높습니다"
    else if accuracy ≥ 3/5 then "진단 정확도가 양호합니다"
    else "진단 정확도를 개선할 필요가 있습니다"),
   (if cost_efficiency ≥ 4/5 then "비용 효율성이 매우 우수합니다"
    else if cost_efficiency ≥ 3/5 then "비용 효율성이 적절합니다"
    else "비용 효율성을 개선할 필요가 있습니다"),
   (if safety ≥ 4/5 then "안전성 수준이 매우 높습니다"
    else if safety ≥ 3/5 then "안전성 수준이 적절합니다"
    else "안전성을 개선할 필요가 있습니다")]

/-- `_generate_improvement_suggestions` (a failed model call is swallowed,
appending nothing); the final list is truncated to 5 entries. -/
def generate_improvement_suggestions (oracle : Except String String)
    (accuracy cost_efficiency safety : ℚ) : List String :=
  let ai := match oracle with
    | .ok content => splitTrimFilter content
    | .error _ => []
  (ai ++ (if accuracy < 7/10 then ["추가 검사를 통한 진단 정확도 향상"] else []) ++
    (if cost_efficiency < 3/5 then ["비용 효율적인 대안 검사 고려"] else []) ++
    (if safety < 7/10 then ["안전 프로토콜 강화 및 모니터링 강화"] else [])).take 5

/-- pydantic construction of `SDBenchEvaluation`: all four scores must pass
their `ge=0.0, le=1.0` checks, otherwise the constructor raises (`none`). -/
def mkSDBenchEvaluation (accuracy_score cost_efficiency safety_score
    overall_score : ℚ) (feedback improvement_suggestions : List String) :
    Option SDBenchEvaluation :=
  if 0 ≤ accuracy_score ∧ accuracy_score ≤ 1 ∧
     0 ≤ cost_efficiency ∧ cost_efficiency ≤ 1 ∧
     0 ≤ safety_score ∧ safety_score ≤ 1 ∧
     0 ≤ overall_score ∧ overall_score ≤ 1 then
    some { accuracy_score := accuracy_score, cost_efficiency := cost_efficiency
           safety_score := safety_score, overall_score := overall_score
           feedback := feedback
           improvement_suggestions := improvement_suggestions }
  else none

/-- `evaluate_diagnosis` (one `ScoreOracle` per score call plus the
suggestions call; `decision_result` only flows into prompt text, which the
oracles absorb). -/
def evaluate_diagnosis (accO costO safO : ScoreOracle)
    (sugO : Except String String) (diagnosis : Diagnosis)
    (patient : PatientInfo) (cost_analysis : Option CostAnalysis) :
    Option SDBenchEvaluation :=
  let accuracy_score := evaluate_accuracy accO diagnosis patient
  let cost_efficiency := evaluate_cost_efficiency costO cost_analysis
  let safety_score := evaluate_safety safO diagnosis patient
  let overall_score :=
    calculate_overall_score accuracy_score cost_efficiency safety_score
  mkSDBenchEvaluation accuracy_score cost_efficiency safety_score overall_score
    (generate_feedback accuracy_score cost_efficiency safety_score)
    (generate_improvement_suggestions sugO accuracy_score cost_efficiency
      safety_score)

/-! ## Session-creation boundary (`src/api.py`) -/

/-- `PatientInfoRequest`: `symptoms` is the only required field. -/
structure PatientInfoRequest where
  age : Option Int
  gender : Option String
  symptoms : List String
  medical_history : List String
  current_medications : List String
  vital_signs : Option (List (String × String))
  deriving DecidableEq, Repr

/-- pydantic parsing of the request body into `PatientInfoRequest`: a missing
`symptoms` field is a validation error (HTTP 422 before the handler runs);
any present list — including `[]` — is accepted, since the annotation
`List[str]` carries no minimum-length constraint. -/
def mkPatientInfoRequest (age : Option Int) (gender : Option String)
    (symptoms : Option (List String)) (medical_history : List String)
    (current_medications : List String)
    (vital_signs : Option (List (String × String))) :
    Except String PatientInfoRequest :=
  match symptoms with
  | none => .error "field required: symptoms"
  | some s =>
      .ok { age := age, gender := gender, symptoms := s
            medical_history := medical_history
            current_medications := current_medications
            vital_signs := vital_signs }

/-- The `PatientInfo(...)` construction inside `create_session` (total: the
model has no validators). -/
def toPatientInfo (r : PatientInfoRequest) : PatientInfo :=
  { age := r.age, gender := r.gender, symptoms := r.symptoms
    medical_history := r.medical_history
    current_medications := r.current_medications
    vital_signs := r.vital_signs }

/-- `DecisionResult` model (fields only; produced downstream of the claims). -/
structure DecisionResult where
  action_taken : ActionType
  decision : String
  reasoning : String
  next_steps : List String
  deriving DecidableEq, Repr

/-- `OrchestratorState` (timestamps are wall-clock values outside the
embedding; no claim touches them). -/
structure OrchestratorState where
  patient_info : PatientInfo
  current_action : Option ActionType
  debate_rounds : List DebateRound
  proposed_tests : List MedicalTest
  proposed_diagnosis : Option Diagnosis
  cost_analysis : Option CostAnalysis
  diagnosis_confirmation : Option DiagnosisConfirmation
  final_decision : Option DecisionResult
  sdbench_evaluation : Option SDBenchEvaluation
  session_id : String
  deriving Repr

/-- The in-memory session store `self.sessions`. -/
abbrev SessionStore := List (String × OrchestratorState)

/-- `MAIDxOrchestrator.start_diagnosis_session` (`uuid4()` passed in as the
fresh id): stores the initial state and returns the id. -/
def start_diagnosis_session (freshId : String) (store : SessionStore)
    (patient : PatientInfo) : String × SessionStore :=
  let initial_state : OrchestratorState :=
    { patient_info := patient, current_action := none, debate_rounds := []
      proposed_tests := [], proposed_diagnosis := none, cost_analysis := none
      diagnosis_confirmation := none, final_decision := none
      sdbench_evaluation := none, session_id := freshId }
  (freshId, assocSet store freshId initial_state)

/-- The `create_session` endpoint body: builds a `PatientInfo` and starts a
session.  Nothing in the `try` block can raise for any request value, so the
500 error branch is unreachable and the endpoint always returns the new id. -/
def create_session (freshId : String) (store : SessionStore)
    (request : PatientInfoRequest) : Except String (String × SessionStore) :=
  .ok (start_diagnosis_session freshId store (toPatientInfo request))

/-! ## Orchestrator diagnosis parsing (`src/core/orchestrator.py`,
`_parse_diagnosis`) -/

/-- Loop state of `_parse_diagnosis`'s line scan (initialised to the
documented defaults). -/
structure DiagParseState where
  condition : String
  confidence : ℚ
  severity : String
  reasoning : String
  differential_diagnoses : List String
  deriving Repr

/-- The defaults `_parse_diagnosis` starts from. -/
def initDiagState : DiagParseState :=
  { condition := "미확인 진단", confidence := 1/2, severity := "moderate",
    reasoning := "증상 분석 결과", differential_diagnoses := [] }

/-- One iteration of `_parse_diagnosis`'s line loop. -/
def processDiagLine (st : DiagParseState) (rawLine : String) : DiagParseState :=
  let line := pyStrip rawLine
  if pyStartsWith "진단명:" line then
    { st with condition := pyStrip (pyRemove "진단명:" line) }
  else if pyStartsWith "신뢰도:" line then
    match pyFloat (pyStrip (pyRemove "신뢰도:" line)) with
    | some q => { st with confidence := q }
    | none => { st with confidence := 1/2 }
  else if pyStartsWith "중증도:" line then
    { st with severity := pyStrip (pyRemove "중증도:" line) }
  else if pyStartsWith "근거:" line then
    { st with reasoning := pyStrip (pyRemove "근거:" line) }
  else if pyStartsWith "감별진단:" line then
    { st with differential_diagnoses :=
        splitCommaStripFilter (pyStrip (pyRemove "감별진단:" line)) }
  else st

/-- The field values computed inside `_parse_diagnosis`'s `try` block. -/
def parsedDiagFields (diagnosis_text : String) : DiagParseState :=
  (pySplit '\n' diagnosis_text).foldl processDiagLine initDiagState

/-- `_parse_diagnosis`: the only raise site inside the `try` block is the
`Diagnosis(...)` construction (pydantic range check on `confidence`); on
failure the documented fallback diagnosis (confidence 0.0) is returned. -/
def parse_diagnosis (diagnosis_text : String) : Diagnosis :=
  if 0 ≤ (parsedDiagFields diagnosis_text).confidence ∧
      (parsedDiagFields diagnosis_text).confidence ≤ 1 then
    { condition := (parsedDiagFields diagnosis_text).condition
      icd_code := none
      confidence := (parsedDiagFields diagnosis_text).confidence
      differential_diagnoses :=
        (parsedDiagFields diagnosis_text).differential_diagnoses
      reasoning := (parsedDiagFields diagnosis_text).reasoning
      severity := (parsedDiagFields diagnosis_text).severity }
  else
    { condition := "진단 파싱 오류", icd_code := none, confidence := 0
      differential_diagnoses := []
      reasoning := "진단 파싱 중 오류: " ++ validationErrorText
      severity := "moderate" }

/-! ## Concrete instances used by the claim theorems -/

/-- The test matching table key `"혈액검사"` in the claim's concrete scenario. -/
def cbcTest : MedicalTest :=
  { test_name := "혈액검사(CBC)", test_code := "T1", description := "",
    cost := 0, urgency := "medium", category := "blood" }

/-- A test matching no table key in either direction. -/
def unmatchedTest : MedicalTest :=
  { test_name := "유전자패널", test_code := "T2", description := "",
    cost := 0, urgency := "medium", category := "other" }

/-- Consensus oracle that always answers with the "more debate needed" label. -/
def reconsiderOracle : ConsensusOracle := fun _ _ => .ok "재검토 필요"

/-- Agent oracle answering every invocation with one fixed well-formed reply. -/
def constAgentOracle : AgentOracle := fun _ _ _ => .ok "RESPONSE: ok\nCONFIDENCE: 0.5"

/-- A minimal concrete patient used to instantiate the debate-engine claims. -/
def patient0 : PatientInfo :=
  { age := some 40, gender := some "여성", symptoms := ["발열"],
    medical_history := [], current_medications := [], vital_signs := none }

/-- Consensus oracle whose round-1 call raises. -/
def failingConsensusOracle : ConsensusOracle := fun _ _ => .error "quota exceeded"

/-- Oracle whose hypothesis-role reply is `"RESPONSE: diagnosis A"`; all
other roles reply `"RESPONSE: B"`. -/
def oracleSiblingA : AgentOracle := fun role _ _ =>
  match role with
  | .hypothesis => .ok "RESPONSE: diagnosis A"
  | _ => .ok "RESPONSE: B"

/-- Same as `oracleSiblingA` except for the hypothesis-role reply: the two
runs differ **only** in the first (earlier-sibling) agent's response. -/
def oracleSiblingB : AgentOracle := fun role _ _ =>
  match role with
  | .hypothesis => .ok "RESPONSE: diagnosis C"
  | _ => .ok "RESPONSE: B"

/-- Opinion recommending `["정밀검사", "경과관찰"]` in that order. -/
def respAB : AgentResponse :=
  { agent_role := .hypothesis, response := "r", confidence := 1/2,
    reasoning := "", recommendations := ["정밀검사", "경과관찰"], concerns := [] }

/-- Opinion recommending the same two items in the opposite order. -/
def respBA : AgentResponse :=
  { agent_role := .challenger, response := "r", confidence := 1/2,
    reasoning := "", recommendations := ["경과관찰", "정밀검사"], concerns := [] }

/-- Opinion with confidence 0.1 (uniform recommendations, no concerns). -/
def respC1 : AgentResponse :=
  { agent_role := .hypothesis, response := "r", confidence := 1/10,
    reasoning := "", recommendations := ["안정"], concerns := [] }

/-- Opinion with confidence 0.9 (uniform recommendations, no concerns). -/
def respC9 : AgentResponse :=
  { agent_role := .test_chooser, response := "r", confidence := 9/10,
    reasoning := "", recommendations := ["안정"], concerns := [] }

/-- Opinion with confidence 0.5 (uniform recommendations, no concerns). -/
def respC5 : AgentResponse :=
  { agent_role := .challenger, response := "r", confidence := 5/10,
    reasoning := "", recommendations := ["안정"], concerns := [] }

/-- A raw reply longer than 200 characters whose CONFIDENCE line parses to an
out-of-range float, making the record construction raise. -/
def longBadReply : String :=
  "CONFIDENCE: 1.5\n" ++ String.mk (List.replicate 200 'a')

/-- A request whose `symptoms` field is present but empty. -/
def emptySymptomsRequest : PatientInfoRequest :=
  { age := some 30, gender := none, symptoms := [], medical_history := [],
    current_medications := [], vital_signs := none }

/-- An adversarial-input diagnosis used to instantiate C4. -/
def diagMild : Diagnosis :=
  { condition := "감기", icd_code := none, confidence := 9/10,
    differential_diagnoses := ["독감"], reasoning := "콧물",
    severity := "mild" }

/-! ## Helper lemmas -/

attribute [local semireducible] Rat.add Rat.mul Rat.inv Rat.sub

/-- A `foldl` over `(· + f ·)` from `a` is `a` plus the sum of the images. -/
lemma foldl_add_map_sum (f : MedicalTest → ℚ) :
    ∀ (l : List MedicalTest) (a : ℚ),
      l.foldl (fun acc t => acc + f t) a = a + (l.map f).sum
  | [], a => by simp
  | t :: ts, a => by
      rw [List.foldl_cons, foldl_add_map_sum f ts (a + f t)]
      simp [add_assoc]

/-- `coverageLoop` is the sum of the per-test coverage fractions. -/
lemma coverageLoop_eq_sum (tests : List MedicalTest) :
    coverageLoop tests = (tests.map (fun t => coverageOfTest t.test_name)).sum := by
  unfold coverageLoop
  rw [foldl_add_map_sum]
  simp

/-! ## C6 — cost analysis: mean coverage and patient responsibility -/

/-- **C6.** For every non-empty test list, `analyze_costs` sets
`insurance_coverage` to the simple (unweighted) mean of the per-test coverage
fractions — the first bidirectionally-matching table entry's value, or the
0.7 default for unmatched tests — and sets `patient_responsibility` to
exactly `total_cost * (1 - insurance_coverage)`. -/
theorem analyze_costs_mean_coverage (oracle : Except String String)
    (tests : List MedicalTest) (h : tests ≠ []) :
    (analyze_costs oracle tests).insurance_coverage =
      (tests.map (fun t => coverageOfTest t.test_name)).sum / tests.length ∧
    (analyze_costs oracle tests).patient_responsibility =
      (analyze_costs oracle tests).total_cost *
        (1 - (analyze_costs oracle tests).insurance_coverage) := by
  constructor
  · show calculate_insurance_coverage tests = _
    unfold calculate_insurance_coverage
    rw [if_neg (by simpa using h), coverageLoop_eq_sum]
  · rfl

/-- Witness for C6: the claim's concrete scenario — one `"혈액검사"` match
(cost 50000, coverage 0.8) plus one unmatched test — gives total 100000,
coverage 0.75 and patient responsibility 25000. -/
theorem analyze_costs_mean_coverage_witness :
    [cbcTest, unmatchedTest] ≠ [] ∧
    (analyze_costs (.error "quota") [cbcTest, unmatchedTest]).insurance_coverage =
      ([cbcTest, unmatchedTest].map
        (fun t => coverageOfTest t.test_name)).sum / 2 ∧
    (analyze_costs (.error "quota") [cbcTest, unmatchedTest]).patient_responsibility =
      (analyze_costs (.error "quota") [cbcTest, unmatchedTest]).total_cost *
        (1 - (analyze_costs (.error "quota") [cbcTest, unmatchedTest]).insurance_coverage) ∧
    (analyze_costs (.error "quota") [cbcTest, unmatchedTest]).total_cost = 100000 ∧
    (analyze_costs (.error "quota") [cbcTest, unmatchedTest]).insurance_coverage = 3/4 ∧
    (analyze_costs (.error "quota") [cbcTest, unmatchedTest]).patient_responsibility = 25000 := by
  have h := analyze_costs_mean_coverage (.error "quota") [cbcTest, unmatchedTest]
    (by decide)
  exact ⟨by decide, by simpa using h.1, h.2, by decide, by decide, by decide⟩

/-! ## C3 — action extraction from a consensus string -/

/-- **C3, counterexample.**  The claim says any input containing `"검사"` *or
its English equivalent `"test"`* maps to request-test.  The code only knows
the Korean keywords: the input `"test"` contains `"test"` yet maps to the
ask-question default, and `"질문을 위한 검사"` contains `"검사"` yet maps to
ask-question because the question keyword is checked first. -/
theorem extract_action_counterexample :
    pyIn "test" (pyLower "test") = true ∧
    extract_action_from_consensus "test" = ActionType.ask_question ∧
    pyIn "검사" (pyLower "질문을 위한 검사") = true ∧
    extract_action_from_consensus "질문을 위한 검사" = ActionType.ask_question := by
  decide

/-- **C3, amended.**  `extract_action_from_consensus` is pure keyword
matching on the lowercased consensus with a fixed priority: question keywords
(`"질문"`, `"추가 정보"`) first, then test keywords (`"검사"`, `"테스트"` — the
Korean transliteration; the English word `"test"` is not recognized), then the
diagnosis keyword (`"진단"`), defaulting to ask-question. -/
theorem extract_action_spec (s : String) :
    ((pyIn "질문" (pyLower s) || pyIn "추가 정보" (pyLower s)) = true →
      extract_action_from_consensus s = ActionType.ask_question) ∧
    ((pyIn "질문" (pyLower s) || pyIn "추가 정보" (pyLower s)) = false →
      (pyIn "검사" (pyLower s) || pyIn "테스트" (pyLower s)) = true →
      extract_action_from_consensus s = ActionType.request_test) ∧
    ((pyIn "질문" (pyLower s) || pyIn "추가 정보" (pyLower s)) = false →
      (pyIn "검사" (pyLower s) || pyIn "테스트" (pyLower s)) = false →
      pyIn "진단" (pyLower s) = true →
      extract_action_from_consensus s = ActionType.provide_diagnosis) ∧
    ((pyIn "질문" (pyLower s) || pyIn "추가 정보" (pyLower s)) = false →
      (pyIn "검사" (pyLower s) || pyIn "테스트" (pyLower s)) = false →
      pyIn "진단" (pyLower s) = false →
      extract_action_from_consensus s = ActionType.ask_question) := by
  unfold extract_action_from_consensus
  refine ⟨fun h1 => ?_, fun h1 h2 => ?_, fun h1 h2 h3 => ?_, fun h1 h2 h3 => ?_⟩ <;>
    simp_all

/-- Witness for C3 (amended): `"검사 요청"` carries no question keyword and a
test keyword, so it maps to request-test. -/
theorem extract_action_spec_witness :
    extract_action_from_consensus "검사 요청" = ActionType.request_test :=
  (extract_action_spec "검사 요청").2.1 (by decide) (by decide)

/-! ## C2 / C9 — debate-loop termination -/

/-- A non-empty needle is never an infix of the empty hay, so the Python
truthiness guard in the stop check is redundant: `consensusStops` is exactly
the substring test for `"합의"`. -/
lemma consensusStops_eq (c : String) : consensusStops c = pyIn "합의" c := by
  unfold consensusStops pyTruthy pyIn
  cases h : c.data with
  | nil => simp [h, listInfixOf, listPrefixOf]
  | cons x xs => simp [h]

lemma listPrefixOf_self_append : ∀ n m : List Char, listPrefixOf n (n ++ m) = true
  | [], _ => rfl
  | a :: as, m => by simp [listPrefixOf, listPrefixOf_self_append as m]

lemma listInfixOf_of_prefixOf (n l : List Char) (h : listPrefixOf n l = true) :
    listInfixOf n l = true := by
  cases l with
  | nil => cases n with
    | nil => rfl
    | cons a as => simp [listPrefixOf] at h
  | cons b bs => simp [listInfixOf, h]

/-- The error consensus `"합의 도출 중 오류 발생: " + e` always contains the
substring `"합의"` the stop check looks for, whatever the exception text. -/
lemma errorConsensus_contains_label (e : String) :
    pyIn "합의" ("합의 도출 중 오류 발생: " ++ e) = true := by
  have h : ("합의 도출 중 오류 발생: " : String) = "합의" ++ " 도출 중 오류 발생: " := by
    decide
  unfold pyIn
  rw [h, String.data_append, String.data_append, List.append_assoc]
  exact listInfixOf_of_prefixOf _ _ (listPrefixOf_self_append _ _)

/-- Unfolding of one loop iteration of `conductAux`, with the `let`-bound
round named `mkDebateRound`. -/
lemma conductAux_succ (o : AgentOracle) (c : ConsensusOracle) (p : PatientInfo)
    (f n : Nat) (ctx : Ctx) :
    conductAux o c p (f + 1) n ctx =
      if consensusStops (mkDebateRound o c p ctx n).consensus then
        [mkDebateRound o c p ctx n]
      else
        mkDebateRound o c p ctx n ::
          conductAux o c p f (n + 1) (update_context ctx (mkDebateRound o c p ctx n)) :=
  rfl

lemma conductAux_length_le (o : AgentOracle) (c : ConsensusOracle)
    (p : PatientInfo) : ∀ (fuel n : Nat) (ctx : Ctx),
    (conductAux o c p fuel n ctx).length ≤ fuel := by
  intro fuel
  induction fuel with
  | zero => intro n ctx; simp [conductAux]
  | succ f ih =>
      intro n ctx
      rw [conductAux_succ]
      split
      · simp
      · simpa using Nat.succ_le_succ (ih (n + 1) _)

lemma conductAux_ne_nil (o : AgentOracle) (c : ConsensusOracle)
    (p : PatientInfo) (fuel n : Nat) (ctx : Ctx) (h : fuel ≠ 0) :
    conductAux o c p fuel n ctx ≠ [] := by
  cases fuel with
  | zero => exact absurd rfl h
  | succ f => rw [conductAux_succ]; split <;> simp

lemma conductAux_nonfinal (o : AgentOracle) (c : ConsensusOracle)
    (p : PatientInfo) : ∀ (fuel n : Nat) (ctx : Ctx) (i : Nat) (r : DebateRound),
    (conductAux o c p fuel n ctx)[i]? = some r →
    i + 1 < (conductAux o c p fuel n ctx).length →
    pyIn "합의" r.consensus = false := by
  intro fuel
  induction fuel with
  | zero => intro n ctx i r hr hi; simp [conductAux] at hr
  | succ f ih =>
      intro n ctx i r hr hi
      rw [conductAux_succ] at hr hi
      by_cases hs : consensusStops (mkDebateRound o c p ctx n).consensus = true
      · rw [if_pos hs] at hi
        simp at hi
      · rw [if_neg hs] at hr hi
        cases i with
        | zero =>
            simp only [List.getElem?_cons_zero, Option.some.injEq] at hr
            rw [← hr]
            simpa [consensusStops_eq] using hs
        | succ j =>
            simp only [List.getElem?_cons_succ] at hr
            simp only [List.length_cons] at hi
            exact ih (n + 1) _ j r hr (by omega)

lemma conductAux_early_stop (o : AgentOracle) (c : ConsensusOracle)
    (p : PatientInfo) : ∀ (fuel n : Nat) (ctx : Ctx),
    (conductAux o c p fuel n ctx).length < fuel →
    ∃ r, (conductAux o c p fuel n ctx).getLast? = some r ∧
      pyIn "합의" r.consensus = true := by
  intro fuel
  induction fuel with
  | zero => intro n ctx h; simp [conductAux] at h
  | succ f ih =>
      intro n ctx h
      rw [conductAux_succ] at h ⊢
      by_cases hs : consensusStops (mkDebateRound o c p ctx n).consensus = true
      · rw [if_pos hs] at h ⊢
        exact ⟨mkDebateRound o c p ctx n, by simp,
          by simpa [consensusStops_eq] using hs⟩
      · rw [if_neg hs] at h ⊢
        have hlen : (conductAux o c p f (n + 1)
            (update_context ctx (mkDebateRound o c p ctx n))).length < f := by
          simp only [List.length_cons] at h
          omega
        obtain ⟨r, hr, hlabel⟩ :=
          ih (n + 1) (update_context ctx (mkDebateRound o c p ctx n)) hlen
        refine ⟨r, ?_, hlabel⟩
        cases hrecEq : conductAux o c p f (n + 1)
            (update_context ctx (mkDebateRound o c p ctx n)) with
        | nil => rw [hrecEq] at hr; simp at hr
        | cons x xs =>
            rw [hrecEq] at hr
            rw [List.getLast?_cons_cons]
            exact hr

lemma conductAux_no_stop_full (o : AgentOracle) (c : ConsensusOracle)
    (p : PatientInfo)
    (hc : ∀ rs m, consensusStops (reach_consensus (c rs m)) = false) :
    ∀ (fuel n : Nat) (ctx : Ctx),
    (conductAux o c p fuel n ctx).length = fuel := by
  intro fuel
  induction fuel with
  | zero => intro n ctx; simp [conductAux]
  | succ f ih =>
      intro n ctx
      rw [conductAux_succ, if_neg (by simp [mkDebateRound, hc])]
      simp [ih]

lemma conductAux_consensus_mem (o : AgentOracle) (c : ConsensusOracle)
    (p : PatientInfo) (t : String) (hc : ∀ rs m, c rs m = .ok t) :
    ∀ (fuel n : Nat) (ctx : Ctx),
    ∀ r ∈ conductAux o c p fuel n ctx, r.consensus = t := by
  intro fuel
  induction fuel with
  | zero => intro n ctx r hr; simp [conductAux] at hr
  | succ f ih =>
      intro n ctx r hr
      rw [conductAux_succ] at hr
      have hcons : (mkDebateRound o c p ctx n).consensus = t := by
        simp [mkDebateRound, hc, reach_consensus]
      split at hr
      · simp only [List.mem_singleton] at hr
        rw [hr, hcons]
      · rcases List.mem_cons.mp hr with h | h
        · rw [h, hcons]
        · exact ih (n + 1) _ r h

/-- **C2.**  `conduct_debate` with `max_rounds = 3` produces between 1 and 3
rounds; a round other than the last never contains the stop label `"합의"`
(whenever the label appears, no further round runs); stopping before round 3
happens only when the last round's consensus contains the label; and a
consensus call that always returns exactly the "more debate needed" label
`"재검토 필요"` yields exactly 3 rounds, none of which contains the label. -/
theorem conduct_debate_stopping (o : AgentOracle) (c : ConsensusOracle)
    (p : PatientInfo) (ctx : Ctx) :
    ((conduct_debate o c p 3 ctx) ≠ [] ∧ (conduct_debate o c p 3 ctx).length ≤ 3) ∧
    (∀ (i : Nat) (r : DebateRound), (conduct_debate o c p 3 ctx)[i]? = some r →
      i + 1 < (conduct_debate o c p 3 ctx).length → pyIn "합의" r.consensus = false) ∧
    ((conduct_debate o c p 3 ctx).length < 3 →
      ∃ r, (conduct_debate o c p 3 ctx).getLast? = some r ∧
        pyIn "합의" r.consensus = true) ∧
    ((∀ rs m, c rs m = .ok "재검토 필요") →
      (conduct_debate o c p 3 ctx).length = 3 ∧
      ∀ r ∈ conduct_debate o c p 3 ctx,
        r.consensus = "재검토 필요" ∧ pyIn "합의" r.consensus = false) := by
  refine ⟨⟨conductAux_ne_nil o c p 3 1 ctx (by omega),
      conductAux_length_le o c p 3 1 ctx⟩,
    fun i r hr hi => conductAux_nonfinal o c p 3 1 ctx i r hr hi,
    fun h => conductAux_early_stop o c p 3 1 ctx h,
    fun hc => ⟨?_, fun r hr => ?_⟩⟩
  · exact conductAux_no_stop_full o c p
      (fun rs m => by rw [hc]; decide) 3 1 ctx
  · have := conductAux_consensus_mem o c p "재검토 필요" hc 3 1 ctx r hr
    exact ⟨this, by rw [this]; decide⟩

/-- Witness for C2: with the always-"재검토 필요" consensus oracle the debate
runs exactly 3 rounds and no round's consensus contains the stop label. -/
theorem conduct_debate_stopping_witness :
    (conduct_debate constAgentOracle reconsiderOracle patient0 3 []).length = 3 ∧
    ∀ r ∈ conduct_debate constAgentOracle reconsiderOracle patient0 3 [],
      r.consensus = "재검토 필요" ∧ pyIn "합의" r.consensus = false :=
  (conduct_debate_stopping constAgentOracle reconsiderOracle patient0 []).2.2.2
    (fun _ _ => rfl)

/-- **C9.**  If the consensus model call raises in round `r`, the error
consensus string contains the stop substring `"합의"`, so the debate
terminates after round `r`: no later round is produced. -/
theorem consensus_error_stops (o : AgentOracle) (c : ConsensusOracle)
    (p : PatientInfo) (ctx : Ctx) (r : Nat) (e : String)
    (h1 : 1 ≤ r) (h2 : r ≤ 3) (hc : ∀ rs, c rs r = .error e) :
    pyIn "합의" (reach_consensus (Except.error e)) = true ∧
    (conduct_debate o c p 3 ctx).length ≤ r := by
  have bound : ∀ (fuel n : Nat) (ctx : Ctx), n ≤ r →
      (conductAux o c p fuel n ctx).length + n ≤ r + 1 := by
    intro fuel
    induction fuel with
    | zero => intro n ctx hn; simpa [conductAux] using Nat.le_succ_of_le hn
    | succ f ih =>
        intro n ctx hn
        rw [conductAux_succ]
        by_cases hnr : n = r
        · rw [if_pos]
          · simp only [List.length_singleton]
            omega
          · show consensusStops (mkDebateRound o c p ctx n).consensus = true
            rw [consensusStops_eq]
            show pyIn "합의"
              (reach_consensus (c (collect_agent_responses o p ctx n) n)) = true
            rw [hnr, hc]
            exact errorConsensus_contains_label e
        · split
          · simp only [List.length_singleton]
            omega
          · have := ih (n + 1)
              (update_context ctx (mkDebateRound o c p ctx n)) (by omega)
            simp only [List.length_cons]
            omega
  refine ⟨errorConsensus_contains_label e, ?_⟩
  have hb := bound 3 1 ctx h1
  show (conductAux o c p 3 1 ctx).length ≤ r
  omega

/-- Witness for C9: a consensus call raising in round 1 stops the debate
after round 1. -/
theorem consensus_error_stops_witness :
    pyIn "합의" (reach_consensus (Except.error "quota exceeded")) = true ∧
    (conduct_debate constAgentOracle failingConsensusOracle patient0 3 []).length ≤ 1 :=
  consensus_error_stops constAgentOracle failingConsensusOracle patient0 [] 1
    "quota exceeded" (by omega) (by omega) (fun _ => rfl)

/-! ## C1 — what later agents of a round see -/

/-- **C1, counterexample.**  Two runs that differ only in the first agent's
model reply (the oracles agree — definitionally — on every other role) give
the round-1 agent at position 2 *different* contexts, while the agent at
position 1 gets the same context: `_collect_agent_responses` threads the
same-round responses collected so far into each later agent's
`"previous_responses"`, so sibling answers do leak within a round. -/
theorem sibling_context_counterexample :
    oracleSiblingA AgentRole.test_chooser = oracleSiblingB AgentRole.test_chooser ∧
    oracleSiblingA AgentRole.challenger = oracleSiblingB AgentRole.challenger ∧
    oracleSiblingA AgentRole.stewardship = oracleSiblingB AgentRole.stewardship ∧
    oracleSiblingA AgentRole.checklist = oracleSiblingB AgentRole.checklist ∧
    contextOfAgent oracleSiblingA patient0 [] 1 0 =
      contextOfAgent oracleSiblingB patient0 [] 1 0 ∧
    contextOfAgent oracleSiblingA patient0 [] 1 1 ≠
      contextOfAgent oracleSiblingB patient0 [] 1 1 := by
  refine ⟨rfl, rfl, rfl, rfl, rfl, by decide⟩

lemma collectAux_contexts (o : AgentOracle) (p : PatientInfo) (c : Ctx)
    (n : Nat) : ∀ (roles : List AgentRole) (acc : List AgentResponse) (k : Nat),
    k < roles.length →
    ((collectAux o p c n roles acc).map (·.1))[k]? =
      some (agentContext c n
        (acc ++ ((collectAux o p c n roles acc).map (·.2)).take k)) := by
  intro roles
  induction roles with
  | nil => intro acc k hk; simp at hk
  | cons role rest ih =>
      intro acc k hk
      cases k with
      | zero => simp [collectAux]
      | succ j =>
          have hj : j < rest.length := by simpa using hk
          simp only [collectAux, List.map_cons, List.getElem?_cons_succ,
            List.take_succ_cons]
          rw [ih (acc ++ [analyze (o role p (agentContext c n acc)) role]) j hj]
          rw [List.append_assoc]
          rfl

/-- **C1, amended.**  The context handed to the agent at 0-based position `k`
of a round is the inter-round context updated with the round number and, under
`"previous_responses"`, exactly the responses of the `k` earlier agents of the
*same* round: later agents do depend on earlier siblings, and only the agent
at position 0 sees purely prior-round context. -/
theorem agent_context_spec (o : AgentOracle) (p : PatientInfo) (ctx : Ctx)
    (n k : Nat) (hk : k < panelRoles.length) :
    contextOfAgent o p ctx n k =
      some (agentContext ctx n ((collect_agent_responses o p ctx n).take k)) := by
  unfold contextOfAgent collect_agent_responses
  rw [collectAux_contexts o p ctx n panelRoles [] k hk]
  simp

/-- Witness for C1 (amended): at position 1 of round 1 the context is the
base context plus the first same-round response. -/
theorem agent_context_spec_witness :
    1 < panelRoles.length ∧
    contextOfAgent constAgentOracle patient0 [] 1 1 =
      some (agentContext [] 1
        ((collect_agent_responses constAgentOracle patient0 [] 1).take 1)) :=
  ⟨by decide, agent_context_spec constAgentOracle patient0 [] 1 1 (by decide)⟩

/-! ## C5 — disagreement checklist -/

/-- **C5, counterexample.**  The claim says recommendation lists are compared
as *unordered* tuples, so two agents with the same recommendations in a
different order do not trigger the flag.  The code compares Python tuples,
which are ordered: two opinions whose recommendation lists are permutations
of each other (equal confidences, no concerns) do trigger the
recommendations-differ flag. -/
theorem recommendations_order_counterexample :
    respAB.recommendations.Perm respBA.recommendations ∧
    respAB.confidence = respBA.confidence ∧
    respAB.concerns = [] ∧ respBA.concerns = [] ∧
    "에이전트들의 추천사항이 서로 다릅니다" ∈ identify_disagreements [respAB, respBA] := by
  refine ⟨by decide, rfl, rfl, rfl, by decide⟩

lemma foldl_append_concerns (l : List AgentResponse) :
    ∀ a : List String,
      l.foldl (fun acc r => acc ++ r.concerns) a = a ++ (l.map (·.concerns)).join := by
  induction l with
  | nil => intro a; simp
  | cons x xs ih => intro a; simp [ih, List.append_assoc]

lemma allConcerns_ne_nil_iff (l : List AgentResponse) :
    allConcerns l ≠ [] ↔ ∃ x ∈ l, x.concerns ≠ [] := by
  unfold allConcerns
  rw [foldl_append_concerns l []]
  simp only [List.nil_append, ne_eq, List.join_eq_nil_iff]
  constructor
  · intro h
    by_contra hall
    push_neg at hall
    exact h (fun c hc => by
      obtain ⟨x, hx, hcx⟩ := List.mem_map.mp hc
      exact hcx ▸ hall x hx)
  · rintro ⟨x, hx, hcx⟩ h
    exact hcx (h x.concerns (List.mem_map.mpr ⟨x, hx, rfl⟩))

/-- The fixed confidence-spread message never equals a concerns summary,
whatever the joined suffix: they begin with different characters. -/
lemma ne_concernsMsg_of_head (a : String) (ha : a.data.head? = some '에')
    (j : String) : a ≠ "우려사항 발견: " ++ j := by
  intro h
  have hd := congrArg String.data h
  rw [String.data_append] at hd
  have h2 : (("우려사항 발견: " : String).data ++ j.data).head? = some '우' := by
    have hu : ("우려사항 발견: " : String).data =
        '우' :: ("려사항 발견: " : String).data := by decide
    rw [hu]
    rfl
  rw [← hd, ha] at h2
  exact absurd h2 (by decide)

/-- **C5, amended.**  For every non-empty opinion list the disagreement list
contains: the confidence-spread flag iff max − min confidence exceeds 0.3;
the concerns summary (first 3 concern strings joined) iff some opinion has a
non-empty concerns list; and the recommendations-differ flag iff the number
of distinct recommendation lists — compared as *ordered* tuples, so equal
multisets in different orders count as distinct — exceeds one. -/
theorem identify_disagreements_spec (rs : List AgentResponse) (h : rs ≠ []) :
    ("에이전트들 간 신뢰도 차이가 큽니다" ∈ identify_disagreements rs ↔
      ((rs.map (·.confidence)).max?.getD 0) -
        ((rs.map (·.confidence)).min?.getD 0) > 3/10) ∧
    (("우려사항 발견: " ++ String.intercalate ", " ((allConcerns rs).take 3)) ∈
        identify_disagreements rs ↔ ∃ x ∈ rs, x.concerns ≠ []) ∧
    ("에이전트들의 추천사항이 서로 다릅니다" ∈ identify_disagreements rs ↔
      1 < (rs.map (·.recommendations)).dedup.length) := by
  have hconfs : rs.map (·.confidence) ≠ [] := by simpa using h
  obtain ⟨M, hM⟩ : ∃ M, (rs.map (·.confidence)).max? = some M :=
    Option.ne_none_iff_exists'.mp (by
      intro hnone
      exact hconfs (List.max?_eq_none_iff.mp hnone))
  obtain ⟨m, hm⟩ : ∃ m, (rs.map (·.confidence)).min? = some m :=
    Option.ne_none_iff_exists'.mp (by
      intro hnone
      exact hconfs (List.min?_eq_none_iff.mp hnone))
  have hspread_ne_concerns : ∀ j, ("에이전트들 간 신뢰도 차이가 큽니다" : String) ≠
      "우려사항 발견: " ++ j := ne_concernsMsg_of_head _ (by decide)
  have hrecs_ne_concerns : ∀ j, ("에이전트들의 추천사항이 서로 다릅니다" : String) ≠
      "우려사항 발견: " ++ j := ne_concernsMsg_of_head _ (by decide)
  have mem_sf : ∀ x ∈ spreadFlag rs, x = "에이전트들 간 신뢰도 차이가 큽니다" := by
    intro x hx
    unfold spreadFlag at hx
    split at hx
    · split at hx
      · simpa using hx
      · simp at hx
    · simp at hx
  have mem_cf : ∀ x ∈ concernsFlag rs, x = "우려사항 발견: " ++
      String.intercalate ", " ((allConcerns rs).take 3) := by
    intro x hx
    unfold concernsFlag at hx
    split at hx
    · simpa using hx
    · simp at hx
  have mem_rf : ∀ x ∈ recsFlag rs, x = "에이전트들의 추천사항이 서로 다릅니다" := by
    intro x hx
    unfold recsFlag at hx
    split at hx
    · simpa using hx
    · simp at hx
  have hsf_iff : ("에이전트들 간 신뢰도 차이가 큽니다" ∈ spreadFlag rs) ↔ M - m > 3/10 := by
    by_cases hc : M - m > 3/10 <;> simp [spreadFlag, hM, hm, hc]
  have hcf_iff : ("우려사항 발견: " ++
      String.intercalate ", " ((allConcerns rs).take 3) ∈ concernsFlag rs) ↔
      allConcerns rs ≠ [] := by
    by_cases hc : allConcerns rs = [] <;> simp [concernsFlag, hc]
  have hrf_iff : ("에이전트들의 추천사항이 서로 다릅니다" ∈ recsFlag rs) ↔
      1 < (rs.map (·.recommendations)).dedup.length := by
    by_cases hc : 1 < (rs.map (·.recommendations)).dedup.length <;>
      simp [recsFlag, hc]
  have hs_cf : "에이전트들 간 신뢰도 차이가 큽니다" ∉ concernsFlag rs :=
    fun hmem => hspread_ne_concerns _ (mem_cf _ hmem)
  have hs_rf : "에이전트들 간 신뢰도 차이가 큽니다" ∉ recsFlag rs :=
    fun hmem => absurd (mem_rf _ hmem) (by decide)
  have hc_sf : "우려사항 발견: " ++
      String.intercalate ", " ((allConcerns rs).take 3) ∉ spreadFlag rs :=
    fun hmem => hspread_ne_concerns _ (mem_sf _ hmem).symm
  have hc_rf : "우려사항 발견: " ++
      String.intercalate ", " ((allConcerns rs).take 3) ∉ recsFlag rs :=
    fun hmem => hrecs_ne_concerns _ (mem_rf _ hmem).symm
  have hr_sf : "에이전트들의 추천사항이 서로 다릅니다" ∉ spreadFlag rs :=
    fun hmem => absurd (mem_sf _ hmem) (by decide)
  have hr_cf : "에이전트들의 추천사항이 서로 다릅니다" ∉ concernsFlag rs :=
    fun hmem => hrecs_ne_concerns _ (mem_cf _ hmem)
  simp only [hM, hm, Option.getD_some]
  unfold identify_disagreements
  refine ⟨?_, ?_, ?_⟩
  · rw [List.mem_append, List.mem_append]
    constructor
    · rintro ((h1 | h2) | h3)
      · exact hsf_iff.mp h1
      · exact absurd h2 hs_cf
      · exact absurd h3 hs_rf
    · intro hc
      exact Or.inl (Or.inl (hsf_iff.mpr hc))
  · rw [List.mem_append, List.mem_append]
    constructor
    · rintro ((h1 | h2) | h3)
      · exact absurd h1 hc_sf
      · exact (allConcerns_ne_nil_iff rs).mp (hcf_iff.mp h2)
      · exact absurd h3 hc_rf
    · intro hc
      exact Or.inl (Or.inr (hcf_iff.mpr ((allConcerns_ne_nil_iff rs).mpr hc)))
  · rw [List.mem_append, List.mem_append]
    constructor
    · rintro ((h1 | h2) | h3)
      · exact absurd h1 hr_sf
      · exact absurd h2 hr_cf
      · exact hrf_iff.mp h3
    · intro hc
      exact Or.inr (hrf_iff.mpr hc)

/-- Witness for C5 (amended): the spec's own scenario — confidences 0.1, 0.9,
0.5, no concerns, identical recommendations — flags the confidence spread and
does not flag differing recommendations. -/
theorem identify_disagreements_spec_witness :
    ([respC1, respC9, respC5] : List AgentResponse) ≠ [] ∧
    ("에이전트들 간 신뢰도 차이가 큽니다" ∈
        identify_disagreements [respC1, respC9, respC5] ↔
      (([respC1, respC9, respC5].map (·.confidence)).max?.getD 0) -
        (([respC1, respC9, respC5].map (·.confidence)).min?.getD 0) > 3/10) ∧
    ("에이전트들 간 신뢰도 차이가 큽니다" ∈
        identify_disagreements [respC1, respC9, respC5]) ∧
    ("에이전트들의 추천사항이 서로 다릅니다" ∉
        identify_disagreements [respC1, respC9, respC5]) := by
  refine ⟨by decide, (identify_disagreements_spec _ (by decide)).1, by decide, by decide⟩

/-! ## C7 / C10 — the whole-record parse-failure fallback -/

/-- The try-block record's confidence is the scanned confidence value. -/
lemma tryRecord_confidence (role : AgentRole) (content : String) :
    (tryRecord role content).confidence = (parsedFields content).confidence :=
  rfl

set_option maxRecDepth 100000 in
/-- **C7, counterexample.**  The claim says the fallback's `response` equals
the first 200 characters of the raw text; on a 216-character raw text whose
parsing raises (out-of-range CONFIDENCE), the returned `response` is the
first 200 characters *followed by `"..."`*, so it differs from the first 200
characters. -/
theorem parse_fallback_truncation_counterexample :
    ¬ (0 ≤ (parsedFields longBadReply).confidence ∧
        (parsedFields longBadReply).confidence ≤ 1) ∧
    pyLen longBadReply = 216 ∧
    (parse_response .hypothesis longBadReply).response ≠ pyTake 200 longBadReply ∧
    (parse_response .hypothesis longBadReply).response =
      pyTake 200 longBadReply ++ "..." := by
  refine ⟨by decide, by decide, by decide, by decide⟩

/-- **C7, amended.**  Whenever the try-block record fails the pydantic range
check (the only raise site of `_parse_response`), the parser returns exactly
the documented whole-record fallback: confidence 0.5, the fixed parse-error
reasoning, no recommendations, exactly one concern (prefixed `"파싱 오류: "`),
and a `response` equal to the raw text when it has at most 200 characters and
to its first 200 characters followed by `"..."` otherwise. -/
theorem parse_failure_fallback (role : AgentRole) (content : String)
    (h : ¬ (0 ≤ (parsedFields content).confidence ∧
        (parsedFields content).confidence ≤ 1)) :
    parse_response role content =
      { agent_role := role
        response :=
          if pyLen content > 200 then pyTake 200 content ++ "..." else content
        confidence := 1/2
        reasoning := "응답 파싱 중 오류가 발생했습니다."
        recommendations := []
        concerns := ["파싱 오류: " ++ validationErrorText] } ∧
    (parse_response role content).concerns.length = 1 := by
  have hv : ¬ agentResponseValid (tryRecord role content) := by
    simpa [agentResponseValid, tryRecord_confidence] using h
  have heq : parse_response role content = parseFallback role content := by
    unfold parse_response
    rw [if_neg hv]
  refine ⟨heq, ?_⟩
  rw [heq]
  rfl

set_option maxRecDepth 100000 in
/-- Witness for C7 (amended): application at the concrete over-long raw text
with an out-of-range CONFIDENCE line. -/
theorem parse_failure_fallback_witness :
    parse_response .challenger longBadReply =
      { agent_role := .challenger
        response :=
          if pyLen longBadReply > 200 then pyTake 200 longBadReply ++ "..."
          else longBadReply
        confidence := 1/2
        reasoning := "응답 파싱 중 오류가 발생했습니다."
        recommendations := []
        concerns := ["파싱 오류: " ++ validationErrorText] } ∧
    (parse_response .challenger longBadReply).concerns.length = 1 :=
  parse_failure_fallback .challenger longBadReply (by decide)

/-- **C10.**  When the retained CONFIDENCE value `c` parses to a float
outside `[0, 1]`, the record construction fails pydantic validation inside
the `try` block, so the parser neither returns a record carrying `c` nor
applies only the field-level 0.5 default with the remaining fields parsed
normally: the entire record collapses to the whole-record fallback
(confidence 0.5, parse-error reasoning, no recommendations, one
parsing-error concern, truncated raw text as response). -/
theorem out_of_range_confidence_collapses (role : AgentRole) (content : String)
    (c : ℚ) (hc : (parsedFields content).confidence = c)
    (hout : ¬ (0 ≤ c ∧ c ≤ 1)) :
    parse_response role content = parseFallback role content ∧
    (parse_response role content).confidence = 1/2 ∧
    (parse_response role content).confidence ≠ c ∧
    (parse_response role content).reasoning = "응답 파싱 중 오류가 발생했습니다." ∧
    (parse_response role content).recommendations = [] ∧
    (parse_response role content).concerns.length = 1 := by
  subst hc
  have hv : ¬ agentResponseValid (tryRecord role content) := by
    simpa [agentResponseValid, tryRecord_confidence] using hout
  have heq : parse_response role content = parseFallback role content := by
    unfold parse_response
    rw [if_neg hv]
  refine ⟨heq, by rw [heq]; rfl, ?_, by rw [heq]; rfl, by rw [heq]; rfl,
    by rw [heq]; rfl⟩
  rw [heq]
  intro habs
  exact hout ⟨by rw [← habs]; norm_num [parseFallback],
    by rw [← habs]; norm_num [parseFallback]⟩

/-- Witness for C10: the reply `"CONFIDENCE: 1.5"` parses to 1.5 ∉ [0,1] and
collapses to the whole-record fallback. -/
theorem out_of_range_confidence_collapses_witness :
    parse_response .hypothesis "CONFIDENCE: 1.5" =
      parseFallback .hypothesis "CONFIDENCE: 1.5" ∧
    (parse_response .hypothesis "CONFIDENCE: 1.5").confidence = 1/2 ∧
    (parse_response .hypothesis "CONFIDENCE: 1.5").confidence ≠ 3/2 ∧
    (parse_response .hypothesis "CONFIDENCE: 1.5").reasoning =
      "응답 파싱 중 오류가 발생했습니다." ∧
    (parse_response .hypothesis "CONFIDENCE: 1.5").recommendations = [] ∧
    (parse_response .hypothesis "CONFIDENCE: 1.5").concerns.length = 1 :=
  out_of_range_confidence_collapses .hypothesis "CONFIDENCE: 1.5" (3/2)
    (by decide) (by decide)

/-! ## C8 — empty-symptom validation at the session boundary -/

/-- **C8, counterexample.**  The claim says a request with `symptoms = []`
fails validation at `create_session` and never starts a session.  The
annotation `symptoms: List[str]` only makes the field *required*: an
explicitly empty list passes pydantic validation, `create_session` returns
the fresh session id, and the stored session's patient carries the empty
symptom list — it does reach the pipeline. -/
theorem create_session_empty_symptoms_counterexample :
    mkPatientInfoRequest (some 30) none (some []) [] [] none =
      .ok emptySymptomsRequest ∧
    create_session "sid-1" [] emptySymptomsRequest =
      .ok ("sid-1",
        [("sid-1",
          { patient_info := toPatientInfo emptySymptomsRequest
            current_action := none, debate_rounds := [], proposed_tests := []
            proposed_diagnosis := none, cost_analysis := none
            diagnosis_confirmation := none, final_decision := none
            sdbench_evaluation := none, session_id := "sid-1" })]) ∧
    (toPatientInfo emptySymptomsRequest).symptoms = [] := by
  exact ⟨rfl, rfl, rfl⟩

/-- **C8, amended.**  The only validation at the session-creation boundary is
pydantic's required-field check: a request body *missing* `symptoms` is
rejected before the handler runs, while any present list — the empty list
included — is accepted and `create_session` unconditionally starts and
stores a session holding exactly the request's patient data. -/
theorem create_session_boundary (age : Option Int) (gender : Option String)
    (mh cm : List String) (vs : Option (List (String × String)))
    (freshId : String) (store : SessionStore) (req : PatientInfoRequest) :
    mkPatientInfoRequest age gender none mh cm vs =
      .error "field required: symptoms" ∧
    mkPatientInfoRequest age gender (some []) mh cm vs =
      .ok { age := age, gender := gender, symptoms := [], medical_history := mh,
            current_medications := cm, vital_signs := vs } ∧
    create_session freshId store req =
      .ok (freshId, assocSet store freshId
        { patient_info := toPatientInfo req
          current_action := none, debate_rounds := [], proposed_tests := []
          proposed_diagnosis := none, cost_analysis := none
          diagnosis_confirmation := none, final_decision := none
          sdbench_evaluation := none, session_id := freshId }) := by
  exact ⟨rfl, rfl, rfl⟩

/-! ## C4 — confidence/score fields stay in [0,1] -/

lemma clamp01_mem (x : ℚ) : 0 ≤ clamp01 x ∧ clamp01 x ≤ 1 :=
  ⟨le_min (by norm_num) (le_max_left 0 x), min_le_left 1 _⟩

lemma min_one_mem (x : ℚ) (hx : 0 ≤ x) : 0 ≤ min 1 x ∧ min 1 x ≤ 1 :=
  ⟨le_min (by norm_num) hx, min_le_left 1 x⟩

lemma parse_response_confidence_mem (role : AgentRole) (content : String) :
    0 ≤ (parse_response role content).confidence ∧
      (parse_response role content).confidence ≤ 1 := by
  unfold parse_response
  by_cases hv : agentResponseValid (tryRecord role content)
  · rw [if_pos hv]
    exact hv
  · rw [if_neg hv]
    exact ⟨by norm_num [parseFallback], by norm_num [parseFallback]⟩

lemma basic_accuracy_mem (d : Diagnosis) (p : PatientInfo)
    (h0 : 0 ≤ d.confidence) :
    0 ≤ calculate_basic_accuracy d p ∧ calculate_basic_accuracy d p ≤ 1 := by
  unfold calculate_basic_accuracy
  apply min_one_mem
  have t1 : 0 ≤ d.confidence * (2/5 : ℚ) := mul_nonneg h0 (by norm_num)
  have t2 : 0 ≤ (if p.symptoms ≠ [] then
      (if 0 < matchedSymptoms p then
        ((matchedSymptoms p : ℚ) / p.symptoms.length) * (3/10)
      else 0)
    else 0) := by
    split_ifs with hs hm
    · exact mul_nonneg (div_nonneg (Nat.cast_nonneg _) (Nat.cast_nonneg _))
        (by norm_num)
    · exact le_refl 0
    · exact le_refl 0
  have t3 : 0 ≤ (if d.differential_diagnoses ≠ [] then (1 : ℚ)/5 else 0) := by
    split_ifs <;> norm_num
  have t4 : 0 ≤ (if d.severity = "mild" ∨ d.severity = "moderate" then
      (1 : ℚ)/10 else 0) := by
    split_ifs <;> norm_num
  exact add_nonneg (add_nonneg (add_nonneg t1 t2) t3) t4

lemma basic_cost_efficiency_mem (ca : CostAnalysis)
    (h0 : 0 ≤ ca.insurance_coverage) :
    0 ≤ calculate_basic_cost_efficiency ca ∧
      calculate_basic_cost_efficiency ca ≤ 1 := by
  unfold calculate_basic_cost_efficiency
  apply min_one_mem
  have t1 : 0 ≤ (if ca.total_cost < 100000 then (2 : ℚ)/5
      else if ca.total_cost < 300000 then 3/10
      else if ca.total_cost < 500000 then 1/5
      else 1/10) := by
    split_ifs <;> norm_num
  have t2 : 0 ≤ ca.insurance_coverage * (3/10 : ℚ) :=
    mul_nonneg h0 (by norm_num)
  have t3 : 0 ≤ (if ca.cost_effectiveness = "high" then (3 : ℚ)/10
      else if ca.cost_effectiveness = "medium" then 1/5
      else 1/10) := by
    split_ifs <;> norm_num
  exact add_nonneg (add_nonneg t1 t2) t3

lemma evaluate_accuracy_mem (o : ScoreOracle) (d : Diagnosis) (p : PatientInfo)
    (h0 : 0 ≤ d.confidence) :
    0 ≤ evaluate_accuracy o d p ∧ evaluate_accuracy o d p ≤ 1 := by
  unfold evaluate_accuracy
  match o with
  | .ok (some q) => exact clamp01_mem q
  | .ok none => exact basic_accuracy_mem d p h0
  | .error _ => exact basic_accuracy_mem d p h0

lemma evaluate_cost_efficiency_mem (o : ScoreOracle) (ca : Option CostAnalysis)
    (h0 : ∀ c ∈ ca, 0 ≤ c.insurance_coverage) :
    0 ≤ evaluate_cost_efficiency o ca ∧ evaluate_cost_efficiency o ca ≤ 1 := by
  unfold evaluate_cost_efficiency
  match ca with
  | none => exact ⟨by norm_num, by norm_num⟩
  | some c =>
      match o with
      | .ok (some q) => exact clamp01_mem q
      | .ok none => exact basic_cost_efficiency_mem c (h0 c rfl)
      | .error _ => exact basic_cost_efficiency_mem c (h0 c rfl)

lemma evaluate_safety_mem (o : ScoreOracle) (d : Diagnosis) (p : PatientInfo) :
    0 ≤ evaluate_safety o d p ∧ evaluate_safety o d p ≤ 1 := by
  unfold evaluate_safety
  match o with
  | .ok (some q) => exact clamp01_mem q
  | .ok none => exact clamp01_mem _
  | .error _ => exact clamp01_mem _

/-- **C4.**  Every confidence/score field a component hands back stays in
[0,1], even on adversarial inputs (model replies with out-of-range numbers,
empty evidence lists, arbitrary histories): the Response Parser's two-tier
fallback keeps `AgentResponse.confidence` in range for every raw text; the
agent's call-failure fallback uses 0.0; `_parse_diagnosis` keeps
`Diagnosis.confidence` in range the same way; `DiagnosisConfirmation`'s
`confidence_level` is clamped even when the symptom-match model reply is an
arbitrary unclamped float; and `evaluate_diagnosis` always succeeds with all
four SDBench scores in range, provided its input diagnosis passed pydantic
validation and any supplied cost analysis carries a non-negative coverage. -/
theorem confidence_fields_in_range :
    (∀ (role : AgentRole) (content : String),
      0 ≤ (parse_response role content).confidence ∧
        (parse_response role content).confidence ≤ 1) ∧
    (∀ (oracle : Except String String) (role : AgentRole),
      0 ≤ (analyze oracle role).confidence ∧
        (analyze oracle role).confidence ≤ 1) ∧
    (∀ diagnosis_text : String,
      0 ≤ (parse_diagnosis diagnosis_text).confidence ∧
        (parse_diagnosis diagnosis_text).confidence ≤ 1) ∧
    (∀ (mO : Except String String) (smO : ScoreOracle)
      (rO fO : Except String String) (d : Diagnosis) (p : PatientInfo)
      (ev : List String),
      0 ≤ (confirm_diagnosis mO smO rO fO d p ev).confidence_level ∧
        (confirm_diagnosis mO smO rO fO d p ev).confidence_level ≤ 1) ∧
    (∀ (accO costO safO : ScoreOracle) (sugO : Except String String)
      (d : Diagnosis) (p : PatientInfo) (ca : Option CostAnalysis),
      0 ≤ d.confidence →
      (∀ c ∈ ca, 0 ≤ c.insurance_coverage) →
      (evaluate_diagnosis accO costO safO sugO d p ca).isSome = true ∧
      ∀ ev ∈ evaluate_diagnosis accO costO safO sugO d p ca,
        0 ≤ ev.accuracy_score ∧ ev.accuracy_score ≤ 1 ∧
        0 ≤ ev.cost_efficiency ∧ ev.cost_efficiency ≤ 1 ∧
        0 ≤ ev.safety_score ∧ ev.safety_score ≤ 1 ∧
        0 ≤ ev.overall_score ∧ ev.overall_score ≤ 1) := by
  refine ⟨parse_response_confidence_mem, ?_, ?_, ?_, ?_⟩
  · intro oracle role
    match oracle with
    | .ok content => exact parse_response_confidence_mem role content
    | .error e => exact ⟨by norm_num [analyze], by norm_num [analyze]⟩
  · intro diagnosis_text
    unfold parse_diagnosis
    split_ifs with h
    · exact h
    · exact ⟨le_refl 0, by norm_num⟩
  · intro mO smO rO fO d p ev
    exact clamp01_mem _
  · intro accO costO safO sugO d p ca h0 hcov
    have hacc := evaluate_accuracy_mem accO d p h0
    have hcost := evaluate_cost_efficiency_mem costO ca hcov
    have hsaf := evaluate_safety_mem safO d p
    have hov : 0 ≤ calculate_overall_score (evaluate_accuracy accO d p)
        (evaluate_cost_efficiency costO ca) (evaluate_safety safO d p) ∧
        calculate_overall_score (evaluate_accuracy accO d p)
          (evaluate_cost_efficiency costO ca) (evaluate_safety safO d p) ≤ 1 := by
      unfold calculate_overall_score
      exact clamp01_mem _
    constructor
    · unfold evaluate_diagnosis mkSDBenchEvaluation
      rw [if_pos ⟨hacc.1, hacc.2, hcost.1, hcost.2, hsaf.1, hsaf.2,
        hov.1, hov.2⟩]
      rfl
    · intro ev hev
      unfold evaluate_diagnosis mkSDBenchEvaluation at hev
      rw [if_pos ⟨hacc.1, hacc.2, hcost.1, hcost.2, hsaf.1, hsaf.2,
        hov.1, hov.2⟩] at hev
      simp only [Option.mem_def, Option.some.injEq] at hev
      rw [← hev]
      exact ⟨hacc.1, hacc.2, hcost.1, hcost.2, hsaf.1, hsaf.2, hov.1, hov.2⟩

/-- Witness for C4: concrete instantiations, including an out-of-range score
reply (1.5), an unclamped symptom-match reply (5.0), an out-of-range
diagnosis-confidence line (7.5), and a failed agent call. -/
theorem confidence_fields_in_range_witness :
    (0 ≤ (parse_response .hypothesis "CONFIDENCE: 1.5").confidence ∧
      (parse_response .hypothesis "CONFIDENCE: 1.5").confidence ≤ 1) ∧
    (0 ≤ (analyze (.error "quota") .checklist).confidence ∧
      (analyze (.error "quota") .checklist).confidence ≤ 1) ∧
    (0 ≤ (parse_diagnosis "신뢰도: 7.5").confidence ∧
      (parse_diagnosis "신뢰도: 7.5").confidence ≤ 1) ∧
    (0 ≤ (confirm_diagnosis (.error "e") (.ok (some 5)) (.error "e")
        (.error "e") diagMild patient0 []).confidence_level ∧
      (confirm_diagnosis (.error "e") (.ok (some 5)) (.error "e")
        (.error "e") diagMild patient0 []).confidence_level ≤ 1) ∧
    ((evaluate_diagnosis (.ok (some (3/2))) (.error ()) (.ok none)
        (.error "e") diagMild patient0 none).isSome = true ∧
      ∀ ev ∈ evaluate_diagnosis (.ok (some (3/2))) (.error ()) (.ok none)
          (.error "e") diagMild patient0 none,
        0 ≤ ev.accuracy_score ∧ ev.accuracy_score ≤ 1 ∧
        0 ≤ ev.cost_efficiency ∧ ev.cost_efficiency ≤ 1 ∧
        0 ≤ ev.safety_score ∧ ev.safety_score ≤ 1 ∧
        0 ≤ ev.overall_score ∧ ev.overall_score ≤ 1) :=
  ⟨confidence_fields_in_range.1 .hypothesis "CONFIDENCE: 1.5",
   confidence_fields_in_range.2.1 (.error "quota") .checklist,
   confidence_fields_in_range.2.2.1 "신뢰도: 7.5",
   confidence_fields_in_range.2.2.2.1 (.error "e") (.ok (some 5)) (.error "e")
     (.error "e") diagMild patient0 [],
   confidence_fields_in_range.2.2.2.2 (.ok (some (3/2))) (.error ()) (.ok none)
     (.error "e") diagMild patient0 none (by norm_num [diagMild])
     (by simp)⟩

end MAIDx
